import Mathlib

/-!
Shallow embedding of the Flask campus event management system's
reservation/approval engine (`app/models/*.py`, `app/api/*.py`,
`app/services/business_logic.py`).

Modelling conventions:
- SQLAlchemy rows become records; the database session becomes an explicit
  `Store` value threaded through each endpoint.  An endpoint returns
  `Except ErrResp α × Store`: every `error_response` path returns before
  `db.session.commit()`, and uncommitted session mutations are discarded at
  request teardown, so those paths return the pre-request store; the success
  path returns the store produced at the commit point.
- Python `datetime` values are embedded as integers on a common timeline
  (`datetime.fromisoformat` is order-preserving; the ISO-format error branches
  are not modelled, all time inputs stand for successfully parsed instants).
  `datetime.utcnow()` becomes an explicit `now` parameter.  Audit timestamps
  (`created_at`, `updated_at`, `reviewed_at`) are omitted: no property below
  mentions them.
- Python integers are `Int`; `None`/missing numeric ids in request payloads
  are represented by `0`, matching the `if not x:` falsiness checks.
- JWT decorators (`reviewer_required`, `admin_required`) become a leading
  check on the `claimsRole` argument; the handler-level user lookup stays a
  `Store` lookup, as in the source.
-/

structure Material where
  id : Nat
  name : String
  category : String
  total_quantity : Int
  available_quantity : Int
  unit : String
  description : String
  status : String
  deriving DecidableEq, Repr

structure Venue where
  id : Nat
  name : String
  location : String
  status : String
  deriving DecidableEq, Repr

structure AppMaterial where
  material_id : Nat
  quantity : Int
  deriving DecidableEq, Repr

structure Application where
  id : Nat
  user_id : Nat
  activity_name : String
  activity_description : String
  venue_id : Nat
  start_time : Int
  end_time : Int
  materials : List AppMaterial
  status : String
  rejection_reason : Option String
  reviewer_id : Option Nat
  deriving DecidableEq, Repr

structure User where
  id : Nat
  role : String
  deriving DecidableEq, Repr

structure Store where
  users : List User
  venues : List Venue
  materials : List Material
  applications : List Application
  deriving DecidableEq, Repr

/-- `app/utils/response.py` `error_response(code, message)`. -/
structure ErrResp where
  code : Nat
  msg : String
  deriving DecidableEq, Repr

def err (c : Nat) (m : String) : ErrResp := ⟨c, m⟩

deriving instance DecidableEq for Except

/-- Python `str.strip()` (used on the rejection reason), embedded structurally
over the character list: whitespace is removed from both ends. -/
def stripStr (s : String) : String :=
  ⟨((s.data.dropWhile Char.isWhitespace).reverse.dropWhile Char.isWhitespace).reverse⟩

/-- `Material.is_available` (`app/models/material.py:69-71`). -/
def Material.is_available (m : Material) : Bool :=
  m.status == "available" && decide (0 < m.available_quantity)

/-- `Venue.is_available` (`app/models/venue.py:70-72`). -/
def Venue.is_available (v : Venue) : Bool :=
  v.status == "available"

/-- `Application.has_time_conflict` (`app/models/application.py:133-141`):
`not (end_dt <= other_start_dt or start_dt >= other_end_dt)`. -/
def Application.has_time_conflict (a : Application) (other_start other_end : Int) : Bool :=
  !(decide (a.end_time ≤ other_start) || decide (a.start_time ≥ other_end))

/-- `Application.can_be_cancelled` (`app/models/application.py:125-127`). -/
def Application.can_be_cancelled (a : Application) : Bool :=
  a.status == "pending" || a.status == "approved"

/-- `db.session.get(User, id)` / `mock_data_service` lookups: first row with
the given primary key. -/
def getUser (st : Store) (i : Nat) : Option User :=
  st.users.find? (fun u => u.id == i)

def getVenue (st : Store) (i : Nat) : Option Venue :=
  st.venues.find? (fun v => v.id == i)

def getMaterialIn (mats : List Material) (i : Nat) : Option Material :=
  mats.find? (fun m => m.id == i)

def getMaterial (st : Store) (i : Nat) : Option Material :=
  getMaterialIn st.materials i

def getApplication (st : Store) (i : Nat) : Option Application :=
  st.applications.find? (fun a => a.id == i)

/-- In-place mutation of the session object with primary key `i`
(primary keys are unique, so updating every row with that key is the same as
updating the one identity-mapped object). -/
def updateMaterialInList (mats : List Material) (i : Nat) (f : Material → Material) : List Material :=
  mats.map (fun m => if m.id == i then f m else m)

def updateApplicationInList (apps : List Application) (i : Nat) (f : Application → Application) : List Application :=
  apps.map (fun a => if a.id == i then f a else a)

/-- The inventory-return loop shared by reject (`app/api/approvals.py:185-192`)
and cancel (`app/api/applications.py:289-296`):
`material.available_quantity = min(available + quantity, total)`,
skipping line items whose material no longer exists. -/
def releaseMaterials (mats : List Material) : List AppMaterial → List Material
  | [] => mats
  | am :: rest =>
      releaseMaterials
        (updateMaterialInList mats am.material_id
          (fun m =>
            { m with available_quantity := min (m.available_quantity + am.quantity) m.total_quantity }))
        rest

/-- The per-line-item validation/reservation loop of
`ApplicationListResource.post` (`app/api/applications.py:83-111`), acting on
the draft materials of the session; returns the mutated draft and the built
`ApplicationMaterial` rows, or the first error. -/
def processMaterials (mats : List Material) : List AppMaterial → Except ErrResp (List Material × List AppMaterial)
  | [] => .ok (mats, [])
  | item :: rest =>
      if item.material_id == 0 || item.quantity == 0 then
        .error (err 400 "物资ID和数量不能为空")
      else if item.quantity ≤ 0 then
        .error (err 400 "物资数量必须是正整数")
      else
        match getMaterialIn mats item.material_id with
        | none => .error (err 404 ("物资ID " ++ toString item.material_id ++ " 不存在"))
        | some material =>
          if !material.is_available then
            .error (err 400 ("物资 " ++ material.name ++ " 当前不可用"))
          else if material.available_quantity < item.quantity then
            .error (err 400 ("物资 " ++ material.name ++ " 库存不足，当前可用数量: "
              ++ toString material.available_quantity))
          else
            match processMaterials
                (updateMaterialInList mats item.material_id
                  (fun m => { m with available_quantity := m.available_quantity - item.quantity }))
                rest with
            | .error e => .error e
            | .ok (mats2, ams) =>
                .ok (mats2, { material_id := item.material_id, quantity := item.quantity } :: ams)

/-- The venue-conflict check of `ApplicationListResource.post`
(`app/api/applications.py:69-76`): filter same venue and status in
`['pending_reviewer', 'pending_admin', 'approved']`, then scan
`has_time_conflict`. -/
def conflictExists (st : Store) (venueId : Nat) (s e : Int) : Bool :=
  (st.applications.filter (fun a =>
      a.venue_id == venueId
        && ["pending_reviewer", "pending_admin", "approved"].contains a.status)).any
    (fun a => a.has_time_conflict s e)

/-- Request body of `POST /applications`. -/
structure CreateReq where
  activityName : String
  activityDescription : String
  venueId : Nat
  startTime : Int
  endTime : Int
  materials : List AppMaterial
  deriving DecidableEq, Repr

def freshAppId (st : Store) : Nat :=
  st.applications.foldr (fun a acc => max a.id acc) 0 + 1

/-- `ApplicationListResource.post` (`app/api/applications.py:17-141`). -/
def createApplication (st : Store) (current_user_id : Nat) (req : CreateReq) (now : Int) :
    Except ErrResp Application × Store :=
  if current_user_id == 0 then (.error (err 401 "无效的用户信息"), st)
  else if req.activityName == "" then (.error (err 400 "activityName 不能为空"), st)
  else if req.activityDescription == "" then (.error (err 400 "activityDescription 不能为空"), st)
  else if req.venueId == 0 then (.error (err 400 "venueId 不能为空"), st)
  else if req.endTime ≤ req.startTime then (.error (err 400 "开始时间必须早于结束时间"), st)
  else if req.startTime ≤ now then (.error (err 400 "申请时间不能是过去时间"), st)
  else
    match getUser st current_user_id with
    | none => (.error (err 404 "用户不存在"), st)
    | some user =>
      let initial_status := if user.role == "user" then "pending_reviewer" else "pending_admin"
      match getVenue st req.venueId with
      | none => (.error (err 404 "场地不存在"), st)
      | some venue =>
        if !venue.is_available then (.error (err 400 "场地当前不可用"), st)
        else if conflictExists st req.venueId req.startTime req.endTime then
          (.error (err 400 "该时间段场地已被预约"), st)
        else if req.materials.isEmpty then (.error (err 400 "请至少申请一个物资"), st)
        else
          match processMaterials st.materials req.materials with
          | .error e => (.error e, st)
          | .ok (mats2, ams) =>
            let application : Application :=
              { id := freshAppId st
                user_id := current_user_id
                activity_name := req.activityName
                activity_description := req.activityDescription
                venue_id := req.venueId
                start_time := req.startTime
                end_time := req.endTime
                materials := ams
                status := initial_status
                rejection_reason := none
                reviewer_id := none }
            (.ok application,
             { st with materials := mats2, applications := st.applications ++ [application] })

/-- `ApplicationApproveResource.put` (`app/api/approvals.py:97-147`), with the
`reviewer_required` decorator (`app/utils/auth.py:53-57`) inlined as the
leading `claimsRole` check. -/
def approveApplication (st : Store) (claimsRole : String) (actorId : Nat) (appId : Nat) :
    Except ErrResp Application × Store :=
  if !(claimsRole == "reviewer" || claimsRole == "admin") then (.error (err 403 "权限不足"), st)
  else
    match getUser st actorId with
    | none => (.error (err 401 "无效的用户信息"), st)
    | some current_user =>
      match getApplication st appId with
      | none => (.error (err 404 "申请不存在"), st)
      | some application =>
        if current_user.role == "reviewer" then
          if application.status != "pending_reviewer" then
            (.error (err 400 "非待导员审核状态"), st)
          else
            let upd := fun (a : Application) =>
              { a with status := "pending_admin", reviewer_id := some actorId }
            (.ok (upd application),
             { st with applications := updateApplicationInList st.applications appId upd })
        else if current_user.role == "admin" then
          if application.status != "pending_admin" then
            (.error (err 400 "非待管理员审核状态"), st)
          else
            let upd := fun (a : Application) =>
              { a with status := "approved", reviewer_id := some actorId }
            (.ok (upd application),
             { st with applications := updateApplicationInList st.applications appId upd })
        else (.error (err 403 "权限不足"), st)

/-- `ApplicationRejectResource.put` (`app/api/approvals.py:150-207`); the
missing/empty `rejectionReason` payload is represented by `""`. -/
def rejectApplication (st : Store) (claimsRole : String) (actorId : Nat) (appId : Nat)
    (reason : String) : Except ErrResp Application × Store :=
  if !(claimsRole == "reviewer" || claimsRole == "admin") then (.error (err 403 "权限不足"), st)
  else
    match getUser st actorId with
    | none => (.error (err 401 "无效的用户信息"), st)
    | some _ =>
      if reason == "" then (.error (err 400 "请提供驳回理由"), st)
      else
        let rejection_reason := stripStr reason
        if rejection_reason == "" then (.error (err 400 "驳回理由不能为空"), st)
        else
          match getApplication st appId with
          | none => (.error (err 404 "申请不存在"), st)
          | some application =>
            if !(application.status == "pending_reviewer" || application.status == "pending_admin") then
              (.error (err 400 ("当前状态 " ++ application.status ++ " 的申请无法驳回")), st)
            else
              let upd := fun (a : Application) =>
                { a with status := "rejected", rejection_reason := some rejection_reason, reviewer_id := some actorId }
              let apps2 := updateApplicationInList st.applications appId upd
              let mats2 := releaseMaterials st.materials application.materials
              (.ok (upd application), { st with applications := apps2, materials := mats2 })

/-- `ApplicationCancelResource.put` (`app/api/applications.py:262-309`);
`is_admin()` reads the JWT claims role. -/
def cancelApplication (st : Store) (claimsRole : String) (actorId : Nat) (appId : Nat) :
    Except ErrResp Application × Store :=
  if actorId == 0 then (.error (err 401 "无效的用户信息"), st)
  else
    match getApplication st appId with
    | none => (.error (err 404 "申请不存在"), st)
    | some application =>
      if application.user_id != actorId && !(claimsRole == "admin") then
        (.error (err 403 "权限不足"), st)
      else if !application.can_be_cancelled
          && !(application.status == "pending_reviewer" || application.status == "pending_admin") then
        (.error (err 400 ("当前状态 " ++ application.status ++ " 的申请无法取消")), st)
      else
        let upd := fun (a : Application) => { a with status := "cancelled" }
        let apps2 := updateApplicationInList st.applications appId upd
        let mats2 := releaseMaterials st.materials application.materials
        (.ok (upd application), { st with applications := apps2, materials := mats2 })

/-- Request body of `PUT /materials/<id>`; absent JSON keys are `none`. -/
structure MaterialUpdate where
  name : Option String
  category : Option String
  totalQuantity : Option Int
  availableQuantity : Option Int
  unit : Option String
  description : Option String
  status : Option String
  deriving DecidableEq, Repr

def MaterialUpdate.isEmpty (d : MaterialUpdate) : Bool :=
  d.name.isNone && d.category.isNone && d.totalQuantity.isNone && d.availableQuantity.isNone
    && d.unit.isNone && d.description.isNone && d.status.isNone

/-- `totalQuantity` validation block of `MaterialResource.put`
(`app/api/materials.py:136-144`). -/
def validateTotalQuantity (material : Material) : Option Int → Option ErrResp
  | none => none
  | some tq =>
      if tq ≤ 0 then some (err 400 "总数量必须是正整数")
      else if tq < material.total_quantity - material.available_quantity then
        some (err 400 ("总数量不能小于已占用数量 "
          ++ toString (material.total_quantity - material.available_quantity)))
      else none

/-- `availableQuantity` validation block of `MaterialResource.put`
(`app/api/materials.py:146-155`). -/
def validateAvailableQuantity (material : Material) (data : MaterialUpdate) : Option ErrResp :=
  match data.availableQuantity with
  | none => none
  | some aq =>
      if aq < 0 then some (err 400 "可用数量必须是非负整数")
      else if data.totalQuantity.getD material.total_quantity < aq then
        some (err 400 "可用数量不能超过总数量")
      else none

/-- Field assignment block of `MaterialResource.put`
(`app/api/materials.py:157-171`). -/
def applyMaterialUpdate (m : Material) (data : MaterialUpdate) : Material :=
  { m with
    name := data.name.getD m.name
    category := data.category.getD m.category
    total_quantity := data.totalQuantity.getD m.total_quantity
    available_quantity := data.availableQuantity.getD m.available_quantity
    unit := data.unit.getD m.unit
    description := data.description.getD m.description
    status := data.status.getD m.status }

/-- `MaterialResource.put` (`app/api/materials.py:123-181`), with the
`admin_required` decorator inlined. -/
def updateMaterial (st : Store) (claimsRole : String) (materialId : Nat) (data : MaterialUpdate) :
    Except ErrResp Material × Store :=
  if !(claimsRole == "admin") then (.error (err 403 "权限不足"), st)
  else
    match getMaterial st materialId with
    | none => (.error (err 404 "物资不存在"), st)
    | some material =>
      if data.isEmpty then (.error (err 400 "请提供更新信息"), st)
      else
        match validateTotalQuantity material data.totalQuantity with
        | some e => (.error e, st)
        | none =>
          match validateAvailableQuantity material data with
          | some e => (.error e, st)
          | none =>
            let mats2 := updateMaterialInList st.materials materialId (fun m => applyMaterialUpdate m data)
            (.ok (applyMaterialUpdate material data), { st with materials := mats2 })

/-- Conflict loop of `BusinessLogicService.validate_application_time_conflict`
(`app/services/business_logic.py:47-53`): first application of the same venue
with status in `['pending', 'approved']`, not the excluded id, whose interval
overlaps. -/
def blConflictLoop (st : Store) (venue_id : Nat) (s e : Int) (excl : Option Nat) :
    Option Application :=
  st.applications.find? (fun a =>
    a.venue_id == venue_id
      && ["pending", "approved"].contains a.status
      && (match excl with | none => true | some i => !(a.id == i))
      && a.has_time_conflict s e)

def blConflictExists (st : Store) (venue_id : Nat) (s e : Int) (excl : Option Nat) : Bool :=
  (blConflictLoop st venue_id s e excl).isSome

/-- `BusinessLogicService.validate_application_time_conflict`
(`app/services/business_logic.py:11-55`); returns `(is_valid, message)`. -/
def validate_application_time_conflict (st : Store) (now : Int) (venue_id : Nat) (s e : Int)
    (excl : Option Nat) : Bool × String :=
  if e ≤ s then (false, "开始时间必须早于结束时间")
  else if s ≤ now then (false, "申请时间不能是过去时间")
  else
    match getVenue st venue_id with
    | none => (false, "场地不存在")
    | some venue =>
      if !venue.is_available then (false, "场地当前不可用")
      else
        match blConflictLoop st venue_id s e excl with
        | some a =>
            (false, "该时间段与申请 " ++ toString a.id ++ " (" ++ a.activity_name ++ ") 时间冲突")
        | none => (true, "验证通过")

/-- `BusinessLogicService.get_available_venues`
(`app/services/business_logic.py:114-154`): first validates with
`venue_id = 0`, then filters available venues with no overlapping
`['pending', 'approved']` application. -/
def get_available_venues (st : Store) (now : Int) (s e : Int) : List Venue :=
  if !(validate_application_time_conflict st now 0 s e none).1 then []
  else
    (st.venues.filter (fun v => v.is_available)).filter (fun v =>
      !(st.applications.any (fun a =>
        a.venue_id == v.id
          && ["pending", "approved"].contains a.status
          && a.has_time_conflict s e)))

/-! ## Helper lemmas -/

/-- Updating the row with primary key `i` commutes with looking that row up,
when the update preserves the key. -/
theorem find?_update_application (apps : List Application) (i : Nat)
    (f : Application → Application) (hf : ∀ a, (f a).id = a.id) :
    (updateApplicationInList apps i f).find? (fun a => a.id == i)
      = (apps.find? (fun a => a.id == i)).map f := by
  induction apps with
  | nil => rfl
  | cons a l ih =>
    simp only [updateApplicationInList, List.map_cons] at *
    by_cases h : a.id = i
    · rw [if_pos (by simp [h]),
        List.find?_cons_of_pos _ (by simp [hf a, h]),
        List.find?_cons_of_pos _ (by simp [h])]
      rfl
    · rw [if_neg (by simp [h]),
        List.find?_cons_of_neg _ (by simp [h]),
        List.find?_cons_of_neg _ (by simp [h]), ih]

/-! ## C1 -/

def c1Material : Material :=
  { id := 1, name := "帐篷", category := "活动用品", total_quantity := 10,
    available_quantity := 10, unit := "个", description := "d", status := "available" }

def c1Store : Store :=
  { users := [{ id := 9, role := "admin" }], venues := [], materials := [c1Material],
    applications := [] }

def c1Update : MaterialUpdate :=
  { name := none, category := none, totalQuantity := some 5, availableQuantity := none,
    unit := none, description := none, status := none }

/-- Claim C1: the admin material-update operation is supposed to re-validate and
preserve `0 ≤ availableQuantity ≤ totalQuantity`, but shrinking `totalQuantity`
(here from 10 to 5 on a material with `availableQuantity = 10`) passes every
validation of `MaterialResource.put` and commits a state with
`availableQuantity > totalQuantity`. -/
theorem c1_material_update_breaks_inventory_bound :
    (updateMaterial c1Store "admin" 1 c1Update).1.isOk = true
      ∧ (getMaterial (updateMaterial c1Store "admin" 1 c1Update).2 1).map
          (fun m => decide (m.available_quantity ≤ m.total_quantity)) = some false := by
  decide

/-! ## C2 -/

def c2Material : Material :=
  { id := 1, name := "帐篷", category := "c", total_quantity := 10,
    available_quantity := 7, unit := "个", description := "d", status := "available" }

def c2App : Application :=
  { id := 1, user_id := 2, activity_name := "讲座", activity_description := "d",
    venue_id := 1, start_time := 0, end_time := 10, materials := [{ material_id := 1, quantity := 3 }],
    status := "pending_admin", rejection_reason := none, reviewer_id := none }

def c2Store : Store :=
  { users := [{ id := 7, role := "reviewer" }, { id := 2, role := "user" }],
    venues := [{ id := 1, name := "A", location := "L", status := "available" }],
    materials := [c2Material], applications := [c2App] }

/-- Claim C2 counterexample: a reviewer CAN reject an application at
`pending_admin` — the reject succeeds, the status becomes `rejected`, and the
reserved material is released (`availableQuantity` 7 → 10), contradicting the
claim that such a reject fails and changes nothing. -/
theorem c2_reviewer_reject_pending_admin_succeeds :
    (rejectApplication c2Store "reviewer" 7 1 "理由").1.isOk = true
      ∧ (getApplication (rejectApplication c2Store "reviewer" 7 1 "理由").2 1).map
          (fun a => a.status) = some "rejected"
      ∧ (getMaterial (rejectApplication c2Store "reviewer" 7 1 "理由").2 1).map
          (fun m => m.available_quantity) = some 10 := by
  decide

/-- Claim C2 amended: `ApplicationRejectResource.put` enforces no role/tier
match — for every application at `pending_admin`, a reject by an actor whose
token role is `reviewer` (with a non-empty reason and an existing user row)
succeeds: the application becomes `rejected` and the reserved inventory is
released. -/
theorem c2_reject_ignores_actor_tier
    (st : Store) (actorId appId : Nat) (app : Application) (reason : String)
    (hu : (getUser st actorId).isSome = true)
    (ha : getApplication st appId = some app)
    (hs : app.status = "pending_admin")
    (hr : reason ≠ "") (hrt : stripStr reason ≠ "") :
    (rejectApplication st "reviewer" actorId appId reason).1.isOk = true
      ∧ (getApplication (rejectApplication st "reviewer" actorId appId reason).2 appId).map
          (fun a => a.status) = some "rejected"
      ∧ (rejectApplication st "reviewer" actorId appId reason).2.materials
          = releaseMaterials st.materials app.materials := by
  obtain ⟨u, hu2⟩ := Option.isSome_iff_exists.mp hu
  unfold rejectApplication
  rw [hu2, ha]
  simp [hr, hrt, hs, getApplication]
  refine ⟨rfl, ?_⟩
  rw [find?_update_application st.applications appId
      (fun a => { a with status := "rejected", rejection_reason := some (stripStr reason), reviewer_id := some actorId })
      (fun a => rfl)]
  unfold getApplication at ha
  rw [ha]
  exact ⟨_, rfl, rfl⟩

def c2wApp : Application :=
  { id := 5, user_id := 2, activity_name := "晚会", activity_description := "d",
    venue_id := 1, start_time := 0, end_time := 10,
    materials := [{ material_id := 3, quantity := 2 }],
    status := "pending_admin", rejection_reason := none, reviewer_id := none }

def c2wStore : Store :=
  { users := [{ id := 8, role := "reviewer" }],
    venues := [],
    materials := [{ id := 3, name := "桌子", category := "c", total_quantity := 4,
                    available_quantity := 1, unit := "张", description := "d", status := "available" }],
    applications := [c2wApp] }

/-- Witness for the amended C2 at a concrete store. -/
theorem c2_reject_ignores_actor_tier_witness :
    (rejectApplication c2wStore "reviewer" 8 5 "场地冲突").1.isOk = true
      ∧ (getApplication (rejectApplication c2wStore "reviewer" 8 5 "场地冲突").2 5).map
          (fun a => a.status) = some "rejected"
      ∧ (rejectApplication c2wStore "reviewer" 8 5 "场地冲突").2.materials
          = releaseMaterials c2wStore.materials c2wApp.materials :=
  c2_reject_ignores_actor_tier c2wStore 8 5 c2wApp "场地冲突"
    (by decide) (by decide) (by decide) (by decide) (by decide)

/-! ## C4 -/

/-- Claim C4 amended: an approve issued by an actor with role `admin` on an
application at `pending_reviewer` FAILS with the "not pending_admin" error and
leaves the store unchanged — `ApplicationApproveResource.put` requires the
status to match the actor's own tier exactly, so admin does not inherit
reviewer authority. -/
theorem c4_admin_approve_pending_reviewer_fails
    (st : Store) (u : User) (actorId appId : Nat) (app : Application)
    (hu : getUser st actorId = some u) (hrole : u.role = "admin")
    (ha : getApplication st appId = some app) (hs : app.status = "pending_reviewer") :
    approveApplication st "admin" actorId appId = (.error (err 400 "非待管理员审核状态"), st) := by
  unfold approveApplication
  rw [hu, ha]
  simp [hrole, hs]

def c4Store : Store :=
  { users := [{ id := 9, role := "admin" }, { id := 2, role := "user" }],
    venues := [{ id := 1, name := "A", location := "L", status := "available" }],
    materials := [],
    applications := [{ id := 1, user_id := 2, activity_name := "讲座", activity_description := "d",
                       venue_id := 1, start_time := 0, end_time := 10, materials := [],
                       status := "pending_reviewer", rejection_reason := none, reviewer_id := none }] }

/-- Claim C4 counterexample: at a concrete store, the admin's approve of a
`pending_reviewer` application returns an error instead of moving it to
`pending_admin`. -/
theorem c4_admin_approve_pending_reviewer_fails_concrete :
    approveApplication c4Store "admin" 9 1 = (.error (err 400 "非待管理员审核状态"), c4Store) := by
  decide

def c4wApp : Application :=
  { id := 6, user_id := 3, activity_name := "比赛", activity_description := "d",
    venue_id := 2, start_time := 5, end_time := 9, materials := [],
    status := "pending_reviewer", rejection_reason := none, reviewer_id := none }

def c4wStore : Store :=
  { users := [{ id := 11, role := "admin" }],
    venues := [],
    materials := [],
    applications := [c4wApp] }

/-- Witness for the amended C4 at a concrete store. -/
theorem c4_admin_approve_pending_reviewer_fails_witness :
    approveApplication c4wStore "admin" 11 6 = (.error (err 400 "非待管理员审核状态"), c4wStore) :=
  c4_admin_approve_pending_reviewer_fails c4wStore { id := 11, role := "admin" } 11 6
    c4wApp (by decide) (by decide) (by decide) (by decide)

/-! ## C5 -/

/-- Claim C5: the create-endpoint conflict detector reports a conflict iff some
application of the same venue, in one of the considered statuses, overlaps per
`¬(end1 ≤ start2 ∨ start1 ≥ end2)`; every considered status is active
(neither `cancelled` nor `rejected`); and intervals that merely touch at an
endpoint do not conflict. -/
theorem c5_conflict_check_semantics :
    (∀ st : Store, ∀ v : Nat, ∀ s e : Int,
      conflictExists st v s e = true ↔
        ∃ a ∈ st.applications, a.venue_id = v
          ∧ (a.status = "pending_reviewer" ∨ a.status = "pending_admin" ∨ a.status = "approved")
          ∧ ¬(a.end_time ≤ s ∨ a.start_time ≥ e))
    ∧ (∀ x ∈ (["pending_reviewer", "pending_admin", "approved"] : List String),
        x ≠ "cancelled" ∧ x ≠ "rejected")
    ∧ (∀ a : Application, ∀ s e : Int, a.end_time = s ∨ a.start_time = e →
        a.has_time_conflict s e = false) := by
  refine ⟨?_, by decide, ?_⟩
  · intro st v s e
    unfold conflictExists
    simp [List.any_eq_true, List.mem_filter, Application.has_time_conflict, not_or]
    aesop
  · intro a s e h
    unfold Application.has_time_conflict
    rcases h with h | h <;> simp [h]

def c5App : Application :=
  { id := 1, user_id := 2, activity_name := "讲座", activity_description := "d",
    venue_id := 1, start_time := 0, end_time := 10, materials := [],
    status := "approved", rejection_reason := none, reviewer_id := none }

/-- Witness for C5: an application ending exactly when the queried interval
starts does not conflict. -/
theorem c5_conflict_check_semantics_witness :
    Application.has_time_conflict c5App 10 20 = false :=
  c5_conflict_check_semantics.2.2 c5App 10 20 (Or.inl rfl)

/-! ## C7 -/

def c7AppA : Application :=
  { id := 1, user_id := 2, activity_name := "讲座", activity_description := "d",
    venue_id := 1, start_time := 0, end_time := 10, materials := [],
    status := "pending_admin", rejection_reason := none, reviewer_id := none }

def c7AppB : Application :=
  { id := 2, user_id := 3, activity_name := "晚会", activity_description := "d",
    venue_id := 1, start_time := 5, end_time := 15, materials := [],
    status := "approved", rejection_reason := none, reviewer_id := none }

def c7Store : Store :=
  { users := [{ id := 9, role := "admin" }],
    venues := [{ id := 1, name := "A", location := "L", status := "available" }],
    materials := [],
    applications := [c7AppA, c7AppB] }

/-- Claim C7 counterexample: application 1 (`pending_admin`, venue 1,
`[0,10)`) now overlaps the active application 2 (`approved`, venue 1,
`[5,15)`), yet the admin's approve succeeds and commits status `approved` —
no conflict re-check happens at approval time. -/
theorem c7_approve_commits_despite_conflict :
    Application.has_time_conflict c7AppB 0 10 = true
      ∧ conflictExists c7Store 1 0 10 = true
      ∧ (approveApplication c7Store "admin" 9 1).1.isOk = true
      ∧ (getApplication (approveApplication c7Store "admin" 9 1).2 1).map
          (fun a => a.status) = some "approved" := by
  decide

/-- Claim C7 amended: `ApplicationApproveResource.put` does not re-check venue
conflicts — for EVERY store (in particular one where the application's
venue/interval overlaps another active application), an admin's approve of a
`pending_admin` application succeeds and commits status `approved`, based only
on the role and status checks. -/
theorem c7_approve_does_not_recheck_conflicts
    (st : Store) (u : User) (actorId appId : Nat) (app : Application)
    (hu : getUser st actorId = some u) (hrole : u.role = "admin")
    (ha : getApplication st appId = some app) (hs : app.status = "pending_admin") :
    (approveApplication st "admin" actorId appId).1.isOk = true
      ∧ (getApplication (approveApplication st "admin" actorId appId).2 appId).map
          (fun a => a.status) = some "approved" := by
  unfold approveApplication
  rw [hu, ha]
  simp [hrole, hs, getApplication]
  rw [find?_update_application st.applications appId
      (fun a => { a with status := "approved", reviewer_id := some actorId })
      (fun a => rfl)]
  unfold getApplication at ha
  rw [ha]
  exact ⟨rfl, _, rfl, rfl⟩

/-- Witness for the amended C7 at the concrete conflicted store. -/
theorem c7_approve_does_not_recheck_conflicts_witness :
    (approveApplication c7Store "admin" 9 1).1.isOk = true
      ∧ (getApplication (approveApplication c7Store "admin" 9 1).2 1).map
          (fun a => a.status) = some "approved" :=
  c7_approve_does_not_recheck_conflicts c7Store { id := 9, role := "admin" } 9 1 c7AppA
    (by decide) (by decide) (by decide) (by decide)

/-! ## C9 -/

/-- A first-match lookup succeeds exactly when a linear scan finds a hit. -/
theorem find?_isSome_eq_any {α : Type} (l : List α) (p : α → Bool) :
    (l.find? p).isSome = l.any p := by
  induction l with
  | nil => rfl
  | cons a l ih => cases hpa : p a <;> simp [List.find?_cons, hpa, ih]

/-- Scans agree when the predicates agree on every element of the list. -/
theorem any_congr_of_mem {α : Type} (l : List α) (p q : α → Bool)
    (h : ∀ x ∈ l, p x = q x) :
    l.any p = l.any q := by
  induction l with
  | nil => rfl
  | cons a l ih =>
    simp only [List.any_cons, h a (List.mem_cons_self a l)]
    rw [ih (fun x hx => h x (List.mem_cons_of_mem a hx))]

def c9App : Application :=
  { id := 1, user_id := 2, activity_name := "讲座", activity_description := "d",
    venue_id := 1, start_time := 0, end_time := 10, materials := [],
    status := "pending_reviewer", rejection_reason := none, reviewer_id := none }

def c9Store : Store :=
  { users := [{ id := 2, role := "user" }],
    venues := [{ id := 1, name := "A", location := "L", status := "available" }],
    materials := [],
    applications := [c9App] }

/-- Claim C9 counterexample: on a store holding one `pending_reviewer`
application for venue 1 over `[0,10)`, the create-endpoint check reports a
conflict while `BusinessLogicService.validate_application_time_conflict`'s
loop reports none — the two detectors are NOT equivalent. -/
theorem c9_conflict_checks_disagree :
    conflictExists c9Store 1 0 10 = true
      ∧ blConflictExists c9Store 1 0 10 none = false := by
  decide

/-- Claim C9 amended: the two conflict detectors disagree on the pending
family of statuses (the service treats `pending` as active, the endpoint
treats `pending_reviewer`/`pending_admin` as active); they return the same
verdict on every store in which no application has a status in
`pending`, `pending_reviewer`, `pending_admin`. -/
theorem c9_conflict_checks_agree_without_pending
    (st : Store) (v : Nat) (s e : Int)
    (h : ∀ a ∈ st.applications,
      a.status ≠ "pending" ∧ a.status ≠ "pending_reviewer" ∧ a.status ≠ "pending_admin") :
    blConflictExists st v s e none = conflictExists st v s e := by
  unfold blConflictExists blConflictLoop conflictExists
  rw [find?_isSome_eq_any, List.any_filter]
  apply any_congr_of_mem
  intro x hx
  obtain ⟨h0, h1, h2⟩ := h x hx
  simp [List.contains_cons, h0, h1, h2, Bool.and_assoc]

def c9wApp : Application :=
  { id := 1, user_id := 2, activity_name := "讲座", activity_description := "d",
    venue_id := 1, start_time := 0, end_time := 10, materials := [],
    status := "approved", rejection_reason := none, reviewer_id := none }

def c9wStore : Store :=
  { users := [{ id := 2, role := "user" }],
    venues := [{ id := 1, name := "A", location := "L", status := "available" }],
    materials := [],
    applications := [c9wApp] }

/-- Witness for the amended C9 at a concrete pending-free store. -/
theorem c9_conflict_checks_agree_without_pending_witness :
    blConflictExists c9wStore 1 0 10 none = conflictExists c9wStore 1 0 10 :=
  c9_conflict_checks_agree_without_pending c9wStore 1 0 10 (by decide)

/-! ## C10 -/

/-- Claim C10: `Material.is_available` is true iff the status flag is
`available` AND stock is positive; consequently, when the reservation loop of
`ApplicationListResource.post` reaches a line item whose material exists with
`available_quantity = 0` (even with status flag `available`, and a valid
positive requested quantity), it fails with the material-unavailable error —
before and instead of the insufficient-inventory error. -/
theorem c10_zero_stock_material_unavailable :
    (∀ m : Material, m.is_available = true ↔ (m.status = "available" ∧ 0 < m.available_quantity))
    ∧ (∀ (mats : List Material) (item : AppMaterial) (rest : List AppMaterial) (m : Material),
        item.material_id ≠ 0 → 0 < item.quantity →
        getMaterialIn mats item.material_id = some m →
        m.available_quantity = 0 → m.status = "available" →
        processMaterials mats (item :: rest)
          = .error (err 400 ("物资 " ++ m.name ++ " 当前不可用"))) := by
  constructor
  · intro m
    simp [Material.is_available]
  · intro mats item rest m hid hq hm h0 hst
    have hav : m.is_available = false := by simp [Material.is_available, h0]
    have hq0 : (item.quantity == 0) = false := by simp [hq.ne']
    have hqle : ¬item.quantity ≤ 0 := not_le.mpr hq
    unfold processMaterials
    simp [hid, hq0, hqle, hm, hav]

def c10Mat : Material :=
  { id := 2, name := "椅子", category := "c", total_quantity := 10,
    available_quantity := 0, unit := "把", description := "d", status := "available" }

/-- Witness for C10 at a concrete zero-stock material. -/
theorem c10_zero_stock_material_unavailable_witness :
    processMaterials [c10Mat] [{ material_id := 2, quantity := 1 }]
      = .error (err 400 ("物资 " ++ c10Mat.name ++ " 当前不可用")) :=
  c10_zero_stock_material_unavailable.2 [c10Mat] { material_id := 2, quantity := 1 } [] c10Mat
    (by decide) (by decide) (by decide) (by decide) (by decide)

/-! ## C3 -/

/-- Claim C3: `ApplicationListResource.post` is all-or-nothing — whenever it
returns an error (in particular when a later line item fails after earlier
ones were already reserved), the committed store is exactly the pre-operation
store, so every material's `availableQuantity` keeps its pre-operation value. -/
theorem c3_create_failure_leaves_store_unchanged
    (st : Store) (uid : Nat) (req : CreateReq) (now : Int)
    (res : Except ErrResp Application) (st2 : Store)
    (hEq : createApplication st uid req now = (res, st2))
    (hErr : res.isOk = false) :
    st2 = st := by
  unfold createApplication at hEq
  repeat' split at hEq
  all_goals cases hEq
  all_goals first
    | rfl
    | simp [Except.isOk, Except.toBool] at hErr

def c3Store : Store :=
  { users := [{ id := 2, role := "user" }],
    venues := [{ id := 1, name := "A", location := "L", status := "available" }],
    materials := [{ id := 1, name := "帐篷", category := "c", total_quantity := 10,
                    available_quantity := 5, unit := "个", description := "d",
                    status := "available" }],
    applications := [] }

def c3Req : CreateReq :=
  { activityName := "迎新晚会", activityDescription := "d", venueId := 1,
    startTime := 5, endTime := 8,
    materials := [{ material_id := 1, quantity := 3 }, { material_id := 2, quantity := 1 }] }

/-- Witness for C3: the second line item references a missing material, so the
create fails after the first item was reserved in the draft, and the committed
store is unchanged. -/
theorem c3_create_failure_leaves_store_unchanged_witness :
    (createApplication c3Store 2 c3Req 0).1.isOk = false
      ∧ (createApplication c3Store 2 c3Req 0).2 = c3Store :=
  ⟨by decide,
   c3_create_failure_leaves_store_unchanged c3Store 2 c3Req 0
     (createApplication c3Store 2 c3Req 0).1 (createApplication c3Store 2 c3Req 0).2
     rfl (by decide)⟩

/-! ## C8 -/

/-- Claim C8: `BusinessLogicService.get_available_venues` first calls
`validate_application_time_conflict` with `venue_id = 0`; on every store
without a venue of id 0 that call fails (at latest at the venue lookup), so
the query returns the empty list for every time range. -/
theorem c8_get_available_venues_always_empty
    (st : Store) (now s e : Int)
    (h : ∀ v ∈ st.venues, v.id ≠ 0) :
    get_available_venues st now s e = [] := by
  have hv : getVenue st 0 = none := by
    unfold getVenue
    rw [List.find?_eq_none]
    intro v hvm
    simpa using h v hvm
  unfold get_available_venues validate_application_time_conflict
  rw [hv]
  by_cases h1 : e ≤ s
  · simp [h1]
  · by_cases h2 : s ≤ now
    · simp [h1, h2]
    · simp [h1, h2]

def c8Store : Store :=
  { users := [],
    venues := [{ id := 1, name := "A", location := "L", status := "available" }],
    materials := [],
    applications := [] }

/-- Witness for C8 at a concrete store whose only venue has id 1. -/
theorem c8_get_available_venues_always_empty_witness :
    get_available_venues c8Store 0 5 8 = [] :=
  c8_get_available_venues_always_empty c8Store 0 5 8 (by decide)

/-! ## C6 -/

/-- Claim C6: once an application is `cancelled` or `rejected`, every further
approve, reject, or cancel — by any actor — fails and leaves the whole store
(in particular every material's `availableQuantity`) unchanged; reserved
inventory is never released a second time. -/
theorem c6_terminal_state_actions_fail
    (st : Store) (appId : Nat) (app : Application)
    (ha : getApplication st appId = some app)
    (hs : app.status = "cancelled" ∨ app.status = "rejected") :
    ∀ (claimsRole : String) (actorId : Nat) (reason : String),
      ((approveApplication st claimsRole actorId appId).1.isOk = false
        ∧ (approveApplication st claimsRole actorId appId).2 = st)
      ∧ ((rejectApplication st claimsRole actorId appId reason).1.isOk = false
        ∧ (rejectApplication st claimsRole actorId appId reason).2 = st)
      ∧ ((cancelApplication st claimsRole actorId appId).1.isOk = false
        ∧ (cancelApplication st claimsRole actorId appId).2 = st) := by
  intro claimsRole actorId reason
  have hs1 : (app.status == "pending_reviewer") = false := by rcases hs with h | h <;> simp [h]
  have hs2 : (app.status == "pending_admin") = false := by rcases hs with h | h <;> simp [h]
  have hs3 : (app.status == "pending") = false := by rcases hs with h | h <;> simp [h]
  have hs4 : (app.status == "approved") = false := by rcases hs with h | h <;> simp [h]
  refine ⟨?_, ?_, ?_⟩
  · unfold approveApplication
    repeat' split
    all_goals simp_all [Except.isOk, Except.toBool]
  · by_cases hrt : stripStr reason = "" <;>
      · unfold rejectApplication
        repeat' split
        all_goals simp_all [Except.isOk, Except.toBool, hrt]
  · unfold cancelApplication
    repeat' split
    all_goals simp_all [Except.isOk, Except.toBool, Application.can_be_cancelled]

def c6App : Application :=
  { id := 1, user_id := 2, activity_name := "讲座", activity_description := "d",
    venue_id := 1, start_time := 0, end_time := 10,
    materials := [{ material_id := 1, quantity := 3 }],
    status := "cancelled", rejection_reason := none, reviewer_id := none }

def c6Store : Store :=
  { users := [{ id := 9, role := "admin" }, { id := 2, role := "user" }],
    venues := [{ id := 1, name := "A", location := "L", status := "available" }],
    materials := [{ id := 1, name := "帐篷", category := "c", total_quantity := 10,
                    available_quantity := 10, unit := "个", description := "d",
                    status := "available" }],
    applications := [c6App] }

/-- Witness for C6 at a concrete cancelled application. -/
theorem c6_terminal_state_actions_fail_witness :
    ((approveApplication c6Store "admin" 9 1).1.isOk = false
      ∧ (approveApplication c6Store "admin" 9 1).2 = c6Store)
    ∧ ((rejectApplication c6Store "admin" 9 1 "理由").1.isOk = false
      ∧ (rejectApplication c6Store "admin" 9 1 "理由").2 = c6Store)
    ∧ ((cancelApplication c6Store "admin" 9 1).1.isOk = false
      ∧ (cancelApplication c6Store "admin" 9 1).2 = c6Store) :=
  c6_terminal_state_actions_fail c6Store 1 c6App (by decide) (Or.inl rfl) "admin" 9 "理由"
